import Mathlib

/-!
Verification development for the merttburma-arch/backend repository.

The repository contains three variants of one Express server:
`src/server.js` (Gmail transport, unconditional transporter), and two
evolved variants in `src/unnamed/part_001`: a nodemailer/SMTP variant
with a conditional transporter and `escapeHtml`, and a Resend-based
variant (`part_001` lines 295-556).

The embedding below is a shallow model of the request handlers as pure
functions.  JavaScript values appearing in request bodies are modelled
by the inductive `JSVal` (numbers as `Int`; JS floats/NaN do not occur
in the claims under study).  Time is modelled as a `Nat` (seconds);
`new Date().toISOString()` is order-isomorphic to this clock.  The two
JSON store files are modelled as `Option` of structured documents (the
`JSON.stringify`/`JSON.parse` round trip is the identity on the
documents in question).  JWT signing/verification is modelled by a
`Token` structure carrying its payload, the secret it was signed with
and its expiry; `jwt.verify` succeeds exactly when the secret matches
and the clock is before expiry.  `bcrypt.compareSync` is an external
primitive and is passed in as an abstract comparison function.  The
`Authorization: Bearer <token>` header split of `authenticateToken` is
abstracted to an `Option Token` (none = no token presented).
-/

/-- JavaScript runtime values as they occur in JSON request bodies. -/
inductive JSVal where
  | undef
  | null
  | bool (b : Bool)
  | num (n : Int)
  | str (s : String)
  | arr (xs : List JSVal)
  | obj (fields : List (String × JSVal))

/-- JavaScript truthiness, as used by `if (!x)` checks in the handlers:
`undefined`, `null`, `false`, `0` and the empty string are falsy,
everything else (including empty arrays and objects) is truthy. -/
def jsTruthy : JSVal → Bool
  | .undef => false
  | .null => false
  | .bool b => b
  | .num n => n != 0
  | .str s => s != ""
  | .arr _ => true
  | .obj _ => true

/-- Coercion performed by JS template literal interpolation. -/
def jsTemplateString : JSVal → String
  | .undef => "undefined"
  | .null => "null"
  | .bool b => if b then "true" else "false"
  | .num n => toString n
  | .str s => s
  | .arr _ => ""
  | .obj _ => "[object Object]"

/-- Resolution of `process.env.X || fallback`: an env variable is an
`Option String`; a missing or empty value falls back. -/
def envOr (v : Option String) (fallback : String) : String :=
  match v with
  | none => fallback
  | some s => if s = "" then fallback else s

/-- Truthiness of an env variable, as in `if (process.env.EMAIL_USER && ...)`. -/
def envTruthy : Option String → Bool
  | none => false
  | some s => s != ""

/-- Embedding of `String.prototype.trim()`: strips whitespace from
both ends. -/
def jsTrim (s : String) : String :=
  String.mk (((s.data.dropWhile fun c => c.isWhitespace).reverse.dropWhile
    fun c => c.isWhitespace).reverse)

/-! ## JWT model -/

/-- Payload signed into a session token: `{ username, role }`. -/
structure TokenPayload where
  username : String
  role : String
deriving DecidableEq

/-- Model of a signed JWT: the payload, the secret used at signing and
the absolute expiry time. -/
structure Token where
  payload : TokenPayload
  secret : String
  exp : Nat
deriving DecidableEq

/-- Model of `jwt.sign(payload, JWT_SECRET, { expiresIn: "24h" })` at
clock `now` (seconds): expiry is 24 hours after issuance. -/
def signToken (payload : TokenPayload) (secret : String) (now : Nat) : Token :=
  { payload := payload, secret := secret, exp := now + 24 * 3600 }

/-- Model of `jwt.verify(token, JWT_SECRET, cb)`: succeeds exactly when
the token was signed with the same secret and has not expired. -/
def verifyToken (t : Token) (secret : String) (now : Nat) : Bool :=
  t.secret == secret && now < t.exp

/-- Outcome of the `authenticateToken` middleware. -/
inductive AuthOutcome where
  | missing401
  | invalid403
  | ok (user : TokenPayload)

/-- Embedding of `authenticateToken` (identical in all three variants):
no bearer token yields 401; a token failing `jwt.verify` yields 403;
otherwise `req.user` is set to the decoded payload. -/
def authenticateToken (secret : String) (now : Nat) : Option Token → AuthOutcome
  | none => .missing401
  | some t => if verifyToken t secret now then .ok t.payload else .invalid403

/-! ## Price catalog store -/

/-- Stored price document `{ basePrices, districts, lastUpdated }`.
`basePrices` and `districts` are stored verbatim as submitted (the
handlers perform no schema validation beyond truthiness), so they are
kept as raw `JSVal`. -/
structure PricesDoc where
  basePrices : JSVal
  districts : JSVal
  lastUpdated : Nat

/-- Body of a PUT /api/prices request after destructuring
`const { basePrices, districts } = req.body` (absent fields read as
`undefined`). -/
structure PutBody where
  basePrices : JSVal
  districts : JSVal

/-- Response of the PUT /api/prices handler. -/
inductive PutResult where
  | unauthorized401
  | forbidden403
  | badRequest400
  | ok (doc : PricesDoc)

/-- Embedding of `app.put("/api/prices", authenticateToken, ...)`,
identical in all three variants: after authentication, rejects
non-admin roles with 403, rejects a falsy `basePrices` or `districts`
with 400, and otherwise overwrites the store with
`{ basePrices, districts, lastUpdated: new Date().toISOString() }` and
returns the new document.  The function returns the HTTP outcome
together with the store contents after the request. -/
def putPrices (secret : String) (now : Nat) (presented : Option Token)
    (body : PutBody) (store : Option PricesDoc) : PutResult × Option PricesDoc :=
  match authenticateToken secret now presented with
  | .missing401 => (.unauthorized401, store)
  | .invalid403 => (.forbidden403, store)
  | .ok user =>
    if user.role ≠ "admin" then (.forbidden403, store)
    else if !jsTruthy body.basePrices || !jsTruthy body.districts then
      (.badRequest400, store)
    else
      let updatedPrices : PricesDoc :=
        { basePrices := body.basePrices, districts := body.districts, lastUpdated := now }
      (.ok updatedPrices, some updatedPrices)

/-- Response of the GET /api/prices handler. -/
inductive GetResult where
  | ok (doc : PricesDoc)
  | storeError500

/-- Embedding of `app.get("/api/prices", ...)`, identical in all
variants: reads and parses the store file; a missing file surfaces as
a 500. -/
def getPrices : Option PricesDoc → GetResult
  | some doc => .ok doc
  | none => .storeError500

/-! ## Credential store and login -/

/-- Stored credential record `{ username, password, role }` where
`password` is the bcrypt hash string. -/
structure UserRec where
  username : String
  password : String
  role : String
deriving DecidableEq

/-- Credential store document: a JSON object mapping username keys to
records, modelled as an association list. -/
def UsersMap := List (String × UserRec)

/-- Exact-match key lookup `users[username]` on the credential store. -/
def usersGet : List (String × UserRec) → String → Option UserRec
  | [], _ => none
  | (k, v) :: rest, key => if k == key then some v else usersGet rest key

/-- Response of the POST /api/login handler. -/
inductive LoginResult where
  | invalidCredentials401
  | ok (token : Token) (username : String) (role : String)

/-- Embedding of `app.post("/api/login", ...)` from `src/server.js`:
looks the submitted username up verbatim; if absent or
`bcrypt.compareSync(password, user.password)` fails, 401; otherwise
signs `{ username: user.username, role: user.role }` for 24 hours and
returns it with `user: { username, role }`.  `compare` abstracts
`bcrypt.compareSync`. -/
def loginServerJs (compare : String → String → Bool) (secret : String) (now : Nat)
    (users : List (String × UserRec)) (username password : String) : LoginResult :=
  match usersGet users username with
  | none => .invalidCredentials401
  | some user =>
    if !compare password user.password then .invalidCredentials401
    else .ok (signToken { username := user.username, role := user.role } secret now)
      user.username user.role

/-- Embedding of `app.post("/api/login", ...)` from the two
`src/unnamed/part_001` variants: identical except that the submitted
username is first trimmed (`const u = (username || "").trim()`), the
lookup uses the trimmed string, and the token and response echo the
trimmed string `u` rather than the stored record username. -/
def loginPart001 (compare : String → String → Bool) (secret : String) (now : Nat)
    (users : List (String × UserRec)) (username password : String) : LoginResult :=
  let u := jsTrim username
  match usersGet users u with
  | none => .invalidCredentials401
  | some user =>
    if !compare password user.password then .invalidCredentials401
    else .ok (signToken { username := u, role := user.role } secret now) u user.role

/-! ## Data file seeding (`ensureDataFiles`) -/

/-- Filesystem state relevant to the service: the two JSON store
files, `none` when the file does not exist. -/
structure FsState where
  prices : Option PricesDoc
  users : Option (List (String × UserRec))

/-- Embedding of `ensureDataFiles` (same logic in all variants,
differing only in the default documents, which are passed in): for
each store file, `fs.access` is tried and the default is written only
when the file is absent. -/
def ensureDataFiles (defaultPrices : PricesDoc)
    (defaultUsers : List (String × UserRec)) (st : FsState) : FsState :=
  { prices :=
      match st.prices with
      | some existing => some existing
      | none => some defaultPrices
    users :=
      match st.users with
      | some existing => some existing
      | none => some defaultUsers }

/-- Shorthand for the literal district objects `{ name, cost }` of the
default catalogs. -/
def districtEntry (n : String) (c : Int) : JSVal :=
  .obj [("name", .str n), ("cost", .num c)]

/-- Default `basePrices` object, identical in all variants:
`{ p8: 24500, p10: 24200, p12: 23900 }`. -/
def defaultBasePrices : JSVal :=
  .obj [("p8", .num 24500), ("p10", .num 24200), ("p12", .num 23900)]

/-- Default district list of `src/server.js` and of the SMTP variant
in `src/unnamed/part_001` (38 Istanbul districts). -/
def serverJsDefaultDistricts : List JSVal :=
  [ districtEntry "Arnavutköy" 400
  , districtEntry "Ataşehir" 300
  , districtEntry "Avcılar" 100
  , districtEntry "Bağcılar" 150
  , districtEntry "Bahçelievler" 150
  , districtEntry "Bakırköy" 200
  , districtEntry "Başakşehir" 250
  , districtEntry "Bayrampaşa" 200
  , districtEntry "Beşiktaş" 350
  , districtEntry "Beykoz" 400
  , districtEntry "Beylikdüzü" 50
  , districtEntry "Beyoğlu" 300
  , districtEntry "Büyükçekmece" 150
  , districtEntry "Çatalca" 600
  , districtEntry "Çekmeköy" 350
  , districtEntry "Esenler" 200
  , districtEntry "Esenyurt" 0
  , districtEntry "Eyüpsultan" 250
  , districtEntry "Fatih" 300
  , districtEntry "Gaziosmanpaşa" 250
  , districtEntry "Güngören" 200
  , districtEntry "Kadıköy" 350
  , districtEntry "Kağıthane" 250
  , districtEntry "Kartal" 300
  , districtEntry "Küçükçekmece" 150
  , districtEntry "Maltepe" 300
  , districtEntry "Pendik" 350
  , districtEntry "Sancaktepe" 400
  , districtEntry "Sarıyer" 400
  , districtEntry "Silivri" 700
  , districtEntry "Sultanbeyli" 400
  , districtEntry "Sultangazi" 300
  , districtEntry "Şile" 800
  , districtEntry "Şişli" 300
  , districtEntry "Tuzla" 400
  , districtEntry "Ümraniye" 350
  , districtEntry "Üsküdar" 350
  , districtEntry "Zeytinburnu" 250 ]

/-- Default price catalog of `src/server.js` (and the SMTP variant),
stamped with the boot-time clock. -/
def serverJsDefaultPrices (bootTime : Nat) : PricesDoc :=
  { basePrices := defaultBasePrices
    districts := .arr serverJsDefaultDistricts
    lastUpdated := bootTime }

/-- Default price catalog of the Resend variant
(`src/unnamed/part_001` lines 372-376): same base prices, a single
district entry. -/
def resendDefaultPrices (bootTime : Nat) : PricesDoc :=
  { basePrices := defaultBasePrices
    districts := .arr [districtEntry "Esenyurt" 0]
    lastUpdated := bootTime }

/-- Default credential store: a single admin user whose password field
holds `bcrypt.hashSync("admin123", 10)` — bcrypt is external and
salted, so the hash string is a parameter. -/
def defaultUsers (adminHash : String) : List (String × UserRec) :=
  [("admin", { username := "admin", password := adminHash, role := "admin" })]

/-- Extraction of the `name` field from a district entry object. -/
def districtNameOf : JSVal → Option String
  | .obj (("name", .str n) :: _) => some n
  | _ => none

/-- Names of the district entries of a stored `districts` value. -/
def districtNamesOf : JSVal → List String
  | .arr xs => xs.filterMap districtNameOf
  | _ => []

/-- Keys of a JS object value. -/
def objKeys : JSVal → List String
  | .obj fields => fields.map Prod.fst
  | _ => []

/-! ## Contact relay -/

/-- Embedding of `escapeHtml` from both `src/unnamed/part_001`
variants: five sequential global single-character regex replacements.
`jsReplaceAll c r s` is `s.replace(/c/g, r)` for the one-character
pattern `c`. -/
def jsReplaceAll (c : Char) (r : String) (s : String) : String :=
  String.join (s.data.map (fun ch => if ch == c then r else String.singleton ch))

/-- Embedding of `escapeHtml`, replacing in source order the
characters `&` (38), `<` (60), `>` (62), `"` (34) and the apostrophe
(39). -/
def escapeHtml (s : String) : String :=
  jsReplaceAll (Char.ofNat 39) "&#039;"
    (jsReplaceAll (Char.ofNat 34) "&quot;"
      (jsReplaceAll (Char.ofNat 62) "&gt;"
        (jsReplaceAll (Char.ofNat 60) "&lt;"
          (jsReplaceAll (Char.ofNat 38) "&amp;" s))))

/-- Body of a POST /api/contact request after destructuring
`const { name, surname, email, message } = req.body`. -/
structure ContactBody where
  name : JSVal
  surname : JSVal
  email : JSVal
  message : JSVal

/-- Validation `if (!name || !surname || !email || !message)` common to
all three contact handlers. -/
def contactMissingField (b : ContactBody) : Bool :=
  !jsTruthy b.name || !jsTruthy b.surname || !jsTruthy b.email || !jsTruthy b.message

/-- Response of the POST /api/contact handler. -/
inductive ContactResult where
  | serviceUnavailable503
  | badRequest400
  | ok
  | deliveryError500
deriving DecidableEq

/-- Message object handed to a nodemailer transport (`mailOptions`).
The Gmail and SMTP variants set no reply-to, so `replyTo` is `none`
there; it is kept in the structure to state that fact. -/
structure MailMsg where
  fromAddr : String
  toAddr : JSVal
  subject : String
  html : String
  replyTo : Option JSVal

/-- Message object handed to `resend.emails.send`. -/
structure ResendMail where
  fromAddr : String
  toAddr : List String
  replyTo : JSVal
  subject : String
  html : String

/-- Template chunk of the `src/server.js` contact email preceding the
interpolated `name`. -/
def gmailHtmlA : String := "
                <div style=\"font-family: Arial, sans-serif; max-width: 600px; margin: 0 auto;\">
                    <div style=\"background: #1e40af; color: white; padding: 20px; text-align: center;\">
                        <h2 style=\"margin: 0;\">Eyüboğulları İnşaat</h2>
                        <p style=\"margin: 5px 0 0 0;\">Yeni İletişim Formu Mesajı</p>
                    </div>
                    
                    <div style=\"padding: 20px; background: #f9fafb;\">
                        <div style=\"margin-bottom: 15px;\">
                            <strong>Adı:</strong> "

/-- Template chunk between `name` and `surname`. -/
def gmailHtmlB : String := "
                        </div>
                        <div style=\"margin-bottom: 15px;\">
                            <strong>Soyadı:</strong> "

/-- Template chunk between `surname` and `email`. -/
def gmailHtmlC : String := "
                        </div>
                        <div style=\"margin-bottom: 15px;\">
                            <strong>E-posta:</strong> "

/-- Template chunk between `email` and `message`. -/
def gmailHtmlD : String := "
                        </div>
                        <div style=\"margin-bottom: 15px;\">
                            <strong>Mesaj:</strong>
                        </div>
                        <div style=\"background: white; padding: 15px; border-left: 4px solid #1e40af; white-space: pre-wrap;\">
                            "

/-- Template chunk between `message` and the timestamp. -/
def gmailHtmlE : String := "
                        </div>
                    </div>
                    
                    <div style=\"background: #1f2937; color: white; padding: 15px; text-align: center; font-size: 12px;\">
                        <p style=\"margin: 0;\">Bu mesaj "

/-- Template chunk after the timestamp. -/
def gmailHtmlF : String := " tarihinde gönderildi.</p>
                        <p style=\"margin: 5px 0 0 0;\">Eyüboğulları İnşaat & Demir Çelik</p>
                    </div>
                </div>
            "

/-- Embedding of the `src/server.js` contact email HTML template
(lines 207-237): the four submitted fields and the formatted timestamp
are interpolated verbatim, with no escaping. -/
def gmailHtml (name surname email message ts : String) : String :=
  gmailHtmlA ++ (name ++ (gmailHtmlB ++ (surname ++ (gmailHtmlC ++ (email ++
    (gmailHtmlD ++ (message ++ (gmailHtmlE ++ (ts ++ gmailHtmlF)))))))))

/-- Embedding of the `src/server.js` `mailOptions` object: sender is
`process.env.EMAIL_USER || "eyubogullariinsaat@gmail.com"`, recipient
is the hardcoded address, subject and body interpolate the submitted
fields raw, and no reply-to field is set. -/
def gmailMailOptions (emailUserEnv : Option String) (b : ContactBody) (ts : String) : MailMsg :=
  { fromAddr := envOr emailUserEnv "eyubogullariinsaat@gmail.com"
    toAddr := .str "eyubogullariinsaat@gmail.com"
    subject := "Yeni İletişim Formu Mesajı - " ++ jsTemplateString b.name ++ " " ++
      jsTemplateString b.surname
    html := gmailHtml (jsTemplateString b.name) (jsTemplateString b.surname)
      (jsTemplateString b.email) (jsTemplateString b.message) ts
    replyTo := none }

/-- Embedding of `app.post("/api/contact", ...)` from `src/server.js`:
the transporter is constructed unconditionally at module load, so
there is no 503 path; missing fields give 400 before any send, and
otherwise the mail is handed to `transporter.sendMail` whose external
outcome is the `sendOk` parameter (a rejection surfaces as 500).  The
second component is the message handed to the transport, `none` when
the send was never invoked. -/
def gmailContact (emailUserEnv : Option String) (ts : String) (sendOk : Bool)
    (b : ContactBody) : ContactResult × Option MailMsg :=
  if contactMissingField b then (.badRequest400, none)
  else
    let mail := gmailMailOptions emailUserEnv b ts
    ((if sendOk then .ok else .deliveryError500), some mail)

/-- Configuration record of the SMTP variant transporter. -/
structure SmtpTransporter where
  user : String
  emailPass : String
deriving DecidableEq

/-- Embedding of the boot-time transporter construction of the SMTP
variant (`src/unnamed/part_001` lines 52-63): the transporter exists
only when both `EMAIL_USER` and `EMAIL_PASS` are truthy; this is
evaluated once at module load, and the contact handler receives the
resulting value. -/
def mkSmtpTransporter (emailUser emailPass : Option String) : Option SmtpTransporter :=
  if envTruthy emailUser && envTruthy emailPass then
    some { user := emailUser.getD "", emailPass := emailPass.getD "" }
  else none

/-- Template chunk of the SMTP-variant contact email preceding `name`. -/
def smtpHtmlA : String := "
        <div style=\"font-family: Arial, sans-serif; max-width: 600px; margin: 0 auto;\">
          <div style=\"background: #1e40af; color: white; padding: 20px; text-align: center;\">
            <h2 style=\"margin: 0;\">Eyüboğulları İnşaat</h2>
            <p style=\"margin: 5px 0 0 0;\">Yeni İletişim Formu Mesajı</p>
          </div>

          <div style=\"padding: 20px; background: #f9fafb;\">
            <div style=\"margin-bottom: 15px;\"><strong>Adı:</strong> "

/-- Template chunk between `name` and `surname` (SMTP variant). -/
def smtpHtmlB : String := "</div>
            <div style=\"margin-bottom: 15px;\"><strong>Soyadı:</strong> "

/-- Template chunk between `surname` and `email` (SMTP variant). -/
def smtpHtmlC : String := "</div>
            <div style=\"margin-bottom: 15px;\"><strong>E-posta:</strong> "

/-- Template chunk between `email` and `message` (SMTP variant). -/
def smtpHtmlD : String := "</div>
            <div style=\"margin-bottom: 15px;\"><strong>Mesaj:</strong></div>
            <div style=\"background: white; padding: 15px; border-left: 4px solid #1e40af; white-space: pre-wrap;\">"

/-- Template chunk between `message` and the timestamp (SMTP variant). -/
def smtpHtmlE : String := "</div>
          </div>

          <div style=\"background: #1f2937; color: white; padding: 15px; text-align: center; font-size: 12px;\">
            <p style=\"margin: 0;\">Bu mesaj "

/-- Template chunk after the timestamp (SMTP variant). -/
def smtpHtmlF : String := " tarihinde gönderildi.</p>
          </div>
        </div>
      "

/-- Embedding of the SMTP-variant contact email HTML
(`src/unnamed/part_001` lines 232-251): every interpolated field goes
through `escapeHtml`. -/
def smtpHtml (name surname email message ts : String) : String :=
  smtpHtmlA ++ (escapeHtml name ++ (smtpHtmlB ++ (escapeHtml surname ++ (smtpHtmlC ++
    (escapeHtml email ++ (smtpHtmlD ++ (escapeHtml message ++ (smtpHtmlE ++
      (ts ++ smtpHtmlF)))))))))

/-- Embedding of the SMTP-variant `mailOptions`: sender and recipient
are both `process.env.EMAIL_USER`, subject and body are escaped, no
reply-to is set. -/
def smtpMailOptions (tr : SmtpTransporter) (b : ContactBody) (ts : String) : MailMsg :=
  { fromAddr := tr.user
    toAddr := .str tr.user
    subject := "Yeni İletişim Formu Mesajı - " ++ escapeHtml (jsTemplateString b.name) ++
      " " ++ escapeHtml (jsTemplateString b.surname)
    html := smtpHtml (jsTemplateString b.name) (jsTemplateString b.surname)
      (jsTemplateString b.email) (jsTemplateString b.message) ts
    replyTo := none }

/-- Embedding of `app.post("/api/contact", ...)` from the SMTP variant
(`src/unnamed/part_001` lines 217-264): a missing transporter gives
503 before anything else (field validation included); then missing
fields give 400; otherwise the mail is handed to the transport, whose
outcome is the `sendOk` parameter. -/
def smtpContact (transporter : Option SmtpTransporter) (ts : String) (sendOk : Bool)
    (b : ContactBody) : ContactResult × Option MailMsg :=
  match transporter with
  | none => (.serviceUnavailable503, none)
  | some tr =>
    if contactMissingField b then (.badRequest400, none)
    else
      let mail := smtpMailOptions tr b ts
      ((if sendOk then .ok else .deliveryError500), some mail)

/-- Embedding of the boot-time Resend client construction
(`src/unnamed/part_001` lines 348-357): the client exists only when
`RESEND_API_KEY` resolves to a non-empty string, evaluated once at
module load. -/
def mkResend (apiKeyEnv : Option String) : Bool :=
  envOr apiKeyEnv "" != ""

/-- Resolution of the fixed Resend recipient
`process.env.EMAIL_TO || "eyubogullariinsaat@gmail.com"`. -/
def resendEmailTo (env : Option String) : String :=
  envOr env "eyubogullariinsaat@gmail.com"

/-- Resolution of the Resend sender `process.env.EMAIL_FROM || default`. -/
def resendEmailFrom (env : Option String) : String :=
  envOr env "Eyüboğulları <onboarding@resend.dev>"

/-- Template chunk of the Resend-variant contact email preceding `name`. -/
def resendHtmlA : String := "
      <div style=\"font-family: Arial, sans-serif; line-height: 1.6\">
        <h2>Yeni İletişim Formu Mesajı</h2>
        <p><b>Ad:</b> "

/-- Template chunk between `name` and `surname` (Resend variant). -/
def resendHtmlB : String := "</p>
        <p><b>Soyad:</b> "

/-- Template chunk between `surname` and `email` (Resend variant). -/
def resendHtmlC : String := "</p>
        <p><b>Email:</b> "

/-- Template chunk between `email` and `message` (Resend variant). -/
def resendHtmlD : String := "</p>
        <p><b>Mesaj:</b><br/> "

/-- Template chunk after `message` (Resend variant). -/
def resendHtmlE : String := "</p>
      </div>
    "

/-- Embedding of the Resend-variant contact email HTML
(`src/unnamed/part_001` lines 502-510): all four fields escaped. -/
def resendHtml (name surname email message : String) : String :=
  resendHtmlA ++ (escapeHtml name ++ (resendHtmlB ++ (escapeHtml surname ++
    (resendHtmlC ++ (escapeHtml email ++ (resendHtmlD ++ (escapeHtml message ++
      resendHtmlE)))))))

/-- Embedding of the message handed to `resend.emails.send`
(`src/unnamed/part_001` lines 512-518): recipient is the single fixed
configured address `[EMAIL_TO]`, reply-to is the submitted `email`
body field taken verbatim, subject and body are escaped. -/
def resendMailMsg (emailFrom emailTo : String) (b : ContactBody) : ResendMail :=
  { fromAddr := emailFrom
    toAddr := [emailTo]
    replyTo := b.email
    subject := "Yeni İletişim Formu Mesajı - " ++ escapeHtml (jsTemplateString b.name) ++
      " " ++ escapeHtml (jsTemplateString b.surname)
    html := resendHtml (jsTemplateString b.name) (jsTemplateString b.surname)
      (jsTemplateString b.email) (jsTemplateString b.message) }

/-- Embedding of `app.post("/api/contact", ...)` from the Resend
variant (`src/unnamed/part_001` lines 484-531): a missing client gives
503 before field validation; missing fields give 400; otherwise the
message is handed to `resend.emails.send`, whose external outcome is
the `sendError` parameter (`some e` makes the handler answer 500). -/
def resendContact (resendConfigured : Bool) (sendError : Option String)
    (emailFrom emailTo : String) (b : ContactBody) : ContactResult × Option ResendMail :=
  if !resendConfigured then (.serviceUnavailable503, none)
  else if contactMissingField b then (.badRequest400, none)
  else
    let mail := resendMailMsg emailFrom emailTo b
    ((if sendError.isSome then .deliveryError500 else .ok), some mail)

/-! ## Theorems -/

/-- C1: a PUT /api/prices request with a valid admin token and truthy
`basePrices` and `districts` overwrites the store with exactly
`{ basePrices, districts, lastUpdated = now }`, returns that document,
and a subsequent GET /api/prices returns exactly it, with a
`lastUpdated` at least the one stored before the update (given that
the clock did not go backwards since the previous write). -/
theorem putPrices_admin_update_roundtrip
    (secret : String) (now : Nat) (t : Token) (body : PutBody) (old : PricesDoc)
    (hsec : t.secret = secret) (hexp : now < t.exp)
    (hrole : t.payload.role = "admin")
    (hbp : jsTruthy body.basePrices = true) (hd : jsTruthy body.districts = true)
    (hmono : old.lastUpdated ≤ now) :
    putPrices secret now (some t) body (some old) =
      (.ok { basePrices := body.basePrices, districts := body.districts, lastUpdated := now },
        some { basePrices := body.basePrices, districts := body.districts, lastUpdated := now })
    ∧ getPrices (putPrices secret now (some t) body (some old)).2 =
      .ok { basePrices := body.basePrices, districts := body.districts, lastUpdated := now }
    ∧ old.lastUpdated ≤
      (PricesDoc.mk body.basePrices body.districts now).lastUpdated := by
  unfold putPrices authenticateToken
  simp [verifyToken, hsec, hexp, hrole, hbp, hd, getPrices, hmono]

/-- Witness for C1 at a concrete admin token, body and prior store. -/
theorem putPrices_admin_update_roundtrip_witness :
    putPrices "s" 10 (some ⟨⟨"admin", "admin"⟩, "s", 86400⟩)
        ⟨.num 7, .arr []⟩ (some ⟨.num 1, .num 2, 5⟩) =
      (.ok ⟨.num 7, .arr [], 10⟩, some ⟨.num 7, .arr [], 10⟩)
    ∧ getPrices (putPrices "s" 10 (some ⟨⟨"admin", "admin"⟩, "s", 86400⟩)
        ⟨.num 7, .arr []⟩ (some ⟨.num 1, .num 2, 5⟩)).2 = .ok ⟨.num 7, .arr [], 10⟩
    ∧ (5 : Nat) ≤ (PricesDoc.mk (.num 7) (.arr []) 10).lastUpdated :=
  putPrices_admin_update_roundtrip "s" 10 ⟨⟨"admin", "admin"⟩, "s", 86400⟩
    ⟨.num 7, .arr []⟩ ⟨.num 1, .num 2, 5⟩ rfl (by decide) rfl rfl rfl (by decide)

/-- C2: every PUT /api/prices request answered on an error path (401
missing token, 403 invalid token or wrong role, 400 missing field)
leaves the stored catalog exactly as it was. -/
theorem putPrices_error_paths_leave_store
    (secret : String) (now : Nat) (presented : Option Token) (body : PutBody)
    (store : Option PricesDoc)
    (h : (putPrices secret now presented body store).1 = .unauthorized401
      ∨ (putPrices secret now presented body store).1 = .forbidden403
      ∨ (putPrices secret now presented body store).1 = .badRequest400) :
    (putPrices secret now presented body store).2 = store := by
  unfold putPrices at h ⊢
  cases hA : authenticateToken secret now presented with
  | missing401 => rfl
  | invalid403 => rfl
  | ok user =>
    by_cases hr : user.role = "admin"
    · by_cases hb : (!jsTruthy body.basePrices || !jsTruthy body.districts) = true
      · simp [hr, hb]
      · simp [hA, hr, hb] at h
    · simp [hr]

/-- Witness for C2: a request with no bearer token leaves a concrete
store untouched. -/
theorem putPrices_error_paths_leave_store_witness :
    (putPrices "s" 10 none ⟨.num 7, .arr []⟩ (some ⟨.num 1, .num 2, 5⟩)).2 =
      some ⟨.num 1, .num 2, 5⟩ :=
  putPrices_error_paths_leave_store "s" 10 none ⟨.num 7, .arr []⟩
    (some ⟨.num 1, .num 2, 5⟩) (Or.inl rfl)

/-- C9: for an authenticated admin request, the body check of
PUT /api/prices is exactly JavaScript truthiness of the two
destructured fields: the handler answers 400 precisely when
`basePrices` or `districts` is falsy (so a present-but-falsy `0`,
empty string or `false` is rejected), and any truthy values of any
shape are stored verbatim with no further validation. -/
theorem putPrices_truthiness_exact
    (secret : String) (now : Nat) (t : Token) (body : PutBody)
    (store : Option PricesDoc)
    (hsec : t.secret = secret) (hexp : now < t.exp)
    (hrole : t.payload.role = "admin") :
    ((putPrices secret now (some t) body store).1 = .badRequest400
      ↔ (jsTruthy body.basePrices = false ∨ jsTruthy body.districts = false))
    ∧ (jsTruthy body.basePrices = true → jsTruthy body.districts = true →
      putPrices secret now (some t) body store =
        (.ok ⟨body.basePrices, body.districts, now⟩,
          some ⟨body.basePrices, body.districts, now⟩)) := by
  unfold putPrices authenticateToken
  have hv : verifyToken t secret now = true := by simp [verifyToken, hsec, hexp]
  constructor
  · by_cases hb : jsTruthy body.basePrices <;> by_cases hd : jsTruthy body.districts <;>
      simp [hv, hrole, hb, hd]
  · intro hb hd
    simp [hv, hrole, hb, hd]

/-- Witness for C9: a present-but-falsy `basePrices` of `0` is
rejected with 400, and a truthy string in place of a district list is
accepted and stored verbatim. -/
theorem putPrices_truthiness_exact_witness :
    (putPrices "s" 10 (some ⟨⟨"admin", "admin"⟩, "s", 86400⟩)
        ⟨.num 0, .arr []⟩ none).1 = .badRequest400
    ∧ putPrices "s" 10 (some ⟨⟨"admin", "admin"⟩, "s", 86400⟩)
        ⟨.obj [], .str "oops"⟩ none =
      (.ok ⟨.obj [], .str "oops", 10⟩, some ⟨.obj [], .str "oops", 10⟩) :=
  ⟨(putPrices_truthiness_exact "s" 10 ⟨⟨"admin", "admin"⟩, "s", 86400⟩
      ⟨.num 0, .arr []⟩ none rfl (by decide) rfl).1.mpr (Or.inl rfl),
    (putPrices_truthiness_exact "s" 10 ⟨⟨"admin", "admin"⟩, "s", 86400⟩
      ⟨.obj [], .str "oops"⟩ none rfl (by decide) rfl).2 rfl rfl⟩

/-- C3 counterexample: the part_001 login handlers trim the submitted
username before the lookup, so the submission `" admin "` (which is
not a key of the seeded credential store — exact-match lookup yields
`none`) nevertheless succeeds with the correct password, refuting
"succeeds if and only if the submitted username is found by
exact-match lookup".  `fun p h => p == "admin123" && h == "HASH"` is a
concrete instance of the bcrypt comparison. -/
theorem loginPart001_trims_username_cex :
    loginPart001 (fun p h => p == "admin123" && h == "HASH") "s" 0
        (defaultUsers "HASH") " admin " "admin123" =
      .ok ⟨⟨"admin", "admin"⟩, "s", 86400⟩ "admin" "admin"
    ∧ usersGet (defaultUsers "HASH") " admin " = none := by
  constructor <;> rfl

/-- C3 as amended: login succeeds exactly when the submitted username
— taken verbatim in `src/server.js`, whitespace-trimmed first in the
part_001 handlers — is a key of the credential store whose stored
bcrypt hash matches the password; on success the response carries a
token embedding the looked-up username and role with a 24-hour expiry
together with that username and role, and otherwise the handler
answers 401 with no token. -/
theorem login_exact_lookup_amended
    (compare : String → String → Bool) (secret : String) (now : Nat)
    (users : List (String × UserRec)) (username password : String) :
    ((∃ tok u r, loginServerJs compare secret now users username password = .ok tok u r) ↔
      (∃ rec, usersGet users username = some rec ∧ compare password rec.password = true))
    ∧ ((∃ tok u r, loginPart001 compare secret now users username password = .ok tok u r) ↔
      (∃ rec, usersGet users (jsTrim username) = some rec ∧ compare password rec.password = true))
    ∧ (∀ rec, usersGet users username = some rec → compare password rec.password = true →
      loginServerJs compare secret now users username password =
        .ok ⟨⟨rec.username, rec.role⟩, secret, now + 24 * 3600⟩ rec.username rec.role)
    ∧ (∀ rec, usersGet users (jsTrim username) = some rec → compare password rec.password = true →
      loginPart001 compare secret now users username password =
        .ok ⟨⟨jsTrim username, rec.role⟩, secret, now + 24 * 3600⟩ (jsTrim username) rec.role)
    ∧ ((∀ rec, usersGet users username = some rec → compare password rec.password = false) →
      loginServerJs compare secret now users username password = .invalidCredentials401) := by
  refine ⟨?_, ?_, ?_, ?_, ?_⟩
  · unfold loginServerJs
    cases hu : usersGet users username with
    | none => simp
    | some rec =>
      by_cases hc : compare password rec.password <;> simp [hc, signToken]
  · unfold loginPart001
    cases hu : usersGet users (jsTrim username) with
    | none => simp [hu]
    | some rec =>
      by_cases hc : compare password rec.password <;> simp [hu, hc, signToken]
  · intro rec hu hc
    unfold loginServerJs
    simp [hu, hc, signToken]
  · intro rec hu hc
    unfold loginPart001
    simp [hu, hc, signToken]
  · intro hall
    unfold loginServerJs
    cases hu : usersGet users username with
    | none => rfl
    | some rec => simp [hall rec hu]

/-- Witness for the amended C3: the seeded admin logs in through the
`src/server.js` handler and receives the expected token and user
object. -/
theorem login_exact_lookup_amended_witness :
    loginServerJs (fun p h => p == "admin123" && h == "HASH") "s" 0
        (defaultUsers "HASH") "admin" "admin123" =
      .ok ⟨⟨"admin", "admin"⟩, "s", 86400⟩ "admin" "admin" :=
  (login_exact_lookup_amended (fun p h => p == "admin123" && h == "HASH") "s" 0
      (defaultUsers "HASH") "admin" "admin123").2.2.1
    ⟨"admin", "HASH", "admin"⟩ rfl rfl

/-- C10: `ensureDataFiles` is idempotent with respect to existing
data, file by file: in every state in which the price store file
(respectively the credential store file) already exists — whether or
not the other file does — its contents are left untouched, whatever
the defaults are, so an admin-written catalog survives a restart. -/
theorem ensureDataFiles_preserves_existing
    (defP : PricesDoc) (defU : List (String × UserRec)) (st : FsState) :
    (∀ dp, st.prices = some dp → (ensureDataFiles defP defU st).prices = some dp)
    ∧ (∀ du, st.users = some du → (ensureDataFiles defP defU st).users = some du) := by
  unfold ensureDataFiles
  constructor
  · intro dp hp
    rw [hp]
  · intro du hu
    rw [hu]

/-- Witness for C10 at concrete pre-existing states, each with the
other file absent: an admin-written catalog is not overwritten by a
reboot seeding pass even when the users file is missing, and an
existing users file survives even when the prices file is missing. -/
theorem ensureDataFiles_preserves_existing_witness :
    (ensureDataFiles (serverJsDefaultPrices 99) (defaultUsers "H2")
        ⟨some ⟨.num 7, .arr [], 10⟩, none⟩).prices =
      some ⟨.num 7, .arr [], 10⟩
    ∧ (ensureDataFiles (serverJsDefaultPrices 99) (defaultUsers "H2")
        ⟨none, some (defaultUsers "H1")⟩).users =
      some (defaultUsers "H1") :=
  ⟨(ensureDataFiles_preserves_existing (serverJsDefaultPrices 99) (defaultUsers "H2")
      ⟨some ⟨.num 7, .arr [], 10⟩, none⟩).1 ⟨.num 7, .arr [], 10⟩ rfl,
    (ensureDataFiles_preserves_existing (serverJsDefaultPrices 99) (defaultUsers "H2")
      ⟨none, some (defaultUsers "H1")⟩).2 (defaultUsers "H1") rfl⟩

/-- C8: when the price store file does not exist at boot,
`ensureDataFiles` creates it with the fixed default catalog — whose
base prices cover exactly the three variants `p8`, `p10`, `p12` and
whose district list has pairwise distinct names (in the
`src/server.js`/SMTP default and in the Resend default alike) — and a
subsequent GET /api/prices returns exactly that seeded catalog. -/
theorem ensureDataFiles_seeds_default_catalog
    (bootTime : Nat) (adminHash : String) (st : FsState) (hp : st.prices = none) :
    (ensureDataFiles (serverJsDefaultPrices bootTime) (defaultUsers adminHash) st).prices =
      some (serverJsDefaultPrices bootTime)
    ∧ getPrices (ensureDataFiles (serverJsDefaultPrices bootTime)
        (defaultUsers adminHash) st).prices = .ok (serverJsDefaultPrices bootTime)
    ∧ objKeys (serverJsDefaultPrices bootTime).basePrices = ["p8", "p10", "p12"]
    ∧ (districtNamesOf (serverJsDefaultPrices bootTime).districts).Nodup
    ∧ (districtNamesOf (resendDefaultPrices bootTime).districts).Nodup := by
  have h1 : (ensureDataFiles (serverJsDefaultPrices bootTime)
      (defaultUsers adminHash) st).prices = some (serverJsDefaultPrices bootTime) := by
    unfold ensureDataFiles
    rw [hp]
  refine ⟨h1, ?_, rfl, ?_, ?_⟩
  · rw [h1]
    exact rfl
  · show (districtNamesOf (JSVal.arr serverJsDefaultDistricts)).Nodup
    decide
  · show (districtNamesOf (JSVal.arr [districtEntry "Esenyurt" 0])).Nodup
    decide

/-- Witness for C8 on the empty filesystem state. -/
theorem ensureDataFiles_seeds_default_catalog_witness :
    (ensureDataFiles (serverJsDefaultPrices 0) (defaultUsers "H") ⟨none, none⟩).prices =
      some (serverJsDefaultPrices 0)
    ∧ getPrices (ensureDataFiles (serverJsDefaultPrices 0)
        (defaultUsers "H") ⟨none, none⟩).prices = .ok (serverJsDefaultPrices 0)
    ∧ objKeys (serverJsDefaultPrices 0).basePrices = ["p8", "p10", "p12"]
    ∧ (districtNamesOf (serverJsDefaultPrices 0).districts).Nodup
    ∧ (districtNamesOf (resendDefaultPrices 0).districts).Nodup :=
  ensureDataFiles_seeds_default_catalog 0 "H" ⟨none, none⟩ rfl

/-- C4: when the email provider credentials are absent from the
environment, the boot-time construction yields no transport (SMTP
variant) and no Resend client, and then every POST /api/contact
request — whatever its body or the external send outcome — answers
503 with the send never invoked.  The handlers receive the boot-time
value as a fixed argument, which models that the presence check is
made once at startup, not per request; `src/server.js` constructs its
transporter unconditionally with fallback credentials, so the
premise "no transport configured" cannot arise there. -/
theorem contact_unconfigured_503_at_boot
    (emailUser emailPass apiKey : Option String)
    (hsmtp : envTruthy emailUser = false ∨ envTruthy emailPass = false)
    (hres : envOr apiKey "" = "") :
    mkSmtpTransporter emailUser emailPass = none
    ∧ mkResend apiKey = false
    ∧ (∀ ts sendOk b, smtpContact (mkSmtpTransporter emailUser emailPass) ts sendOk b =
      (.serviceUnavailable503, none))
    ∧ (∀ err ef et b, resendContact (mkResend apiKey) err ef et b =
      (.serviceUnavailable503, none)) := by
  have h1 : mkSmtpTransporter emailUser emailPass = none := by
    unfold mkSmtpTransporter
    rcases hsmtp with h | h <;> simp [h]
  have h2 : mkResend apiKey = false := by
    unfold mkResend
    simp [hres]
  refine ⟨h1, h2, ?_, ?_⟩
  · intro ts sendOk b
    rw [h1]
    rfl
  · intro err ef et b
    rw [h2]
    rfl

/-- Witness for C4 with both credential variables absent and a fully
populated body: the request still answers 503 and nothing is sent. -/
theorem contact_unconfigured_503_at_boot_witness :
    smtpContact (mkSmtpTransporter none none) "ts" true
        ⟨.str "Ali", .str "Veli", .str "ali@x.com", .str "merhaba"⟩ =
      (.serviceUnavailable503, none)
    ∧ resendContact (mkResend none) none "f@x" "t@x"
        ⟨.str "Ali", .str "Veli", .str "ali@x.com", .str "merhaba"⟩ =
      (.serviceUnavailable503, none) :=
  ⟨(contact_unconfigured_503_at_boot none none none (Or.inl rfl) rfl).2.2.1 "ts" true
      ⟨.str "Ali", .str "Veli", .str "ali@x.com", .str "merhaba"⟩,
    (contact_unconfigured_503_at_boot none none none (Or.inl rfl) rfl).2.2.2 none "f@x" "t@x"
      ⟨.str "Ali", .str "Veli", .str "ali@x.com", .str "merhaba"⟩⟩

/-- C7 counterexample: in the part_001 handlers the transporter check
precedes field validation, so with no transport configured a request
with every field absent answers 503, not the claimed 400. -/
theorem contact_missing_field_503_when_unconfigured_cex :
    smtpContact none "ts" true ⟨.undef, .undef, .undef, .undef⟩ =
      (.serviceUnavailable503, none)
    ∧ resendContact false none "f@x" "t@x" ⟨.undef, .undef, .undef, .undef⟩ =
      (.serviceUnavailable503, none)
    ∧ ContactResult.serviceUnavailable503 ≠ ContactResult.badRequest400 :=
  ⟨rfl, rfl, by decide⟩

/-- C7 as amended: a POST /api/contact request with any of the four
fields absent or empty answers 400 with the send never invoked,
provided a transport is configured — unconditionally so in
`src/server.js`, whose transporter always exists; the part_001
handlers instead answer 503 before field validation when no transport
is configured, again without invoking any send. -/
theorem contact_missing_fields_400_no_send
    (emailUserEnv : Option String) (ts : String) (sendOk : Bool)
    (err : Option String) (ef et : String) (tr : SmtpTransporter) (b : ContactBody)
    (hb : contactMissingField b = true) :
    gmailContact emailUserEnv ts sendOk b = (.badRequest400, none)
    ∧ smtpContact (some tr) ts sendOk b = (.badRequest400, none)
    ∧ resendContact true err ef et b = (.badRequest400, none)
    ∧ smtpContact none ts sendOk b = (.serviceUnavailable503, none)
    ∧ resendContact false err ef et b = (.serviceUnavailable503, none) := by
  refine ⟨?_, ?_, ?_, rfl, rfl⟩
  · simp [gmailContact, hb]
  · simp [smtpContact, hb]
  · simp [resendContact, hb]

/-- Witness for the amended C7: an empty `message` field answers 400
in all three handlers and no message is handed to any transport. -/
theorem contact_missing_fields_400_no_send_witness :
    gmailContact none "ts" true ⟨.str "Ali", .str "Veli", .str "ali@x.com", .str ""⟩ =
      (.badRequest400, none)
    ∧ smtpContact (some ⟨"u@x", "p"⟩) "ts" true
        ⟨.str "Ali", .str "Veli", .str "ali@x.com", .str ""⟩ = (.badRequest400, none)
    ∧ resendContact true none "f@x" "t@x"
        ⟨.str "Ali", .str "Veli", .str "ali@x.com", .str ""⟩ = (.badRequest400, none) :=
  ⟨(contact_missing_fields_400_no_send none "ts" true none "f@x" "t@x" ⟨"u@x", "p"⟩
      ⟨.str "Ali", .str "Veli", .str "ali@x.com", .str ""⟩ rfl).1,
    (contact_missing_fields_400_no_send none "ts" true none "f@x" "t@x" ⟨"u@x", "p"⟩
      ⟨.str "Ali", .str "Veli", .str "ali@x.com", .str ""⟩ rfl).2.1,
    (contact_missing_fields_400_no_send none "ts" true none "f@x" "t@x" ⟨"u@x", "p"⟩
      ⟨.str "Ali", .str "Veli", .str "ali@x.com", .str ""⟩ rfl).2.2.1⟩

/-- C5 evaluation at the failing input: the `src/server.js` contact
handler hands the transport an email whose HTML embeds the submitted
name verbatim — the raw `<script>alert(1)</script>` occurs as a
substring of the body — whereas `escapeHtml` of the part_001 handlers
turns it into `&lt;script&gt;alert(1)&lt;/script&gt;`, and the SMTP
variant embeds only that escaped form. -/
theorem gmailContact_embeds_markup_raw :
    gmailContact none "ts" true
        ⟨.str "<script>alert(1)</script>", .str "B", .str "a@b.c", .str "merhaba"⟩ =
      (.ok, some (gmailMailOptions none
        ⟨.str "<script>alert(1)</script>", .str "B", .str "a@b.c", .str "merhaba"⟩ "ts"))
    ∧ (∃ l r, (gmailMailOptions none
        ⟨.str "<script>alert(1)</script>", .str "B", .str "a@b.c", .str "merhaba"⟩ "ts").html =
      l ++ ("<script>alert(1)</script>" ++ r))
    ∧ escapeHtml "<script>alert(1)</script>" = "&lt;script&gt;alert(1)&lt;/script&gt;"
    ∧ (∃ l r, (smtpMailOptions ⟨"u@x", "p"⟩
        ⟨.str "<script>alert(1)</script>", .str "B", .str "a@b.c", .str "merhaba"⟩ "ts").html =
      l ++ ("&lt;script&gt;alert(1)&lt;/script&gt;" ++ r)) := by
  refine ⟨rfl, ⟨gmailHtmlA, gmailHtmlB ++ ("B" ++ (gmailHtmlC ++ ("a@b.c" ++ (gmailHtmlD ++
      ("merhaba" ++ (gmailHtmlE ++ ("ts" ++ gmailHtmlF))))))), rfl⟩, ?_,
    ⟨smtpHtmlA, smtpHtmlB ++ ("B" ++ (smtpHtmlC ++ ("a@b.c" ++ (smtpHtmlD ++ ("merhaba" ++
      (smtpHtmlE ++ ("ts" ++ smtpHtmlF))))))), ?_⟩⟩
  · rfl
  · rfl

/-- C6 counterexample: on a fully populated request, the message the
`src/server.js` handler hands to the transport (likewise the SMTP
variant) carries no reply-to field at all, and the Resend handler,
when the transport reports an error, answers 500 rather than
`{success: true}`. -/
theorem contact_replyTo_missing_cex :
    (gmailContact none "ts" true ⟨.str "Ali", .str "Veli", .str "ali@x.com", .str "merhaba"⟩).2 =
      some (gmailMailOptions none ⟨.str "Ali", .str "Veli", .str "ali@x.com", .str "merhaba"⟩ "ts")
    ∧ (gmailMailOptions none
        ⟨.str "Ali", .str "Veli", .str "ali@x.com", .str "merhaba"⟩ "ts").replyTo = none
    ∧ (smtpMailOptions ⟨"u@x", "p"⟩
        ⟨.str "Ali", .str "Veli", .str "ali@x.com", .str "merhaba"⟩ "ts").replyTo = none
    ∧ (resendContact true (some "boom") "f@x" "t@x"
        ⟨.str "Ali", .str "Veli", .str "ali@x.com", .str "merhaba"⟩).1 = .deliveryError500
    ∧ ContactResult.deliveryError500 ≠ ContactResult.ok :=
  ⟨rfl, rfl, rfl, rfl, by decide⟩

/-- C6 as amended: on a POST /api/contact request with all four fields
populated and a configured transport, the recipient handed to the
transport is the single fixed configured destination in every handler;
the Resend handler additionally sets reply-to to the submitted email
verbatim, while the nodemailer handlers set no reply-to; and the
handler returns `{success: true}` whenever the transport accepts the
message. -/
theorem contact_configured_recipient_and_replyTo
    (emailFromEnv emailToEnv emailUserEnv : Option String) (ts : String)
    (tr : SmtpTransporter) (b : ContactBody)
    (hb : contactMissingField b = false) :
    resendContact true none (resendEmailFrom emailFromEnv) (resendEmailTo emailToEnv) b =
      (.ok, some (resendMailMsg (resendEmailFrom emailFromEnv) (resendEmailTo emailToEnv) b))
    ∧ (resendMailMsg (resendEmailFrom emailFromEnv) (resendEmailTo emailToEnv) b).toAddr =
      [resendEmailTo emailToEnv]
    ∧ (resendMailMsg (resendEmailFrom emailFromEnv) (resendEmailTo emailToEnv) b).replyTo =
      b.email
    ∧ gmailContact emailUserEnv ts true b = (.ok, some (gmailMailOptions emailUserEnv b ts))
    ∧ (gmailMailOptions emailUserEnv b ts).toAddr = .str "eyubogullariinsaat@gmail.com"
    ∧ (gmailMailOptions emailUserEnv b ts).replyTo = none
    ∧ smtpContact (some tr) ts true b = (.ok, some (smtpMailOptions tr b ts))
    ∧ (smtpMailOptions tr b ts).toAddr = .str tr.user
    ∧ (smtpMailOptions tr b ts).replyTo = none := by
  refine ⟨?_, rfl, rfl, ?_, rfl, rfl, ?_, rfl, rfl⟩
  · simp [resendContact, hb]
  · simp [gmailContact, hb]
  · simp [smtpContact, hb]

/-- Witness for the amended C6 on a fully populated request with
default-resolved Resend addresses. -/
theorem contact_configured_recipient_and_replyTo_witness :
    resendContact true none (resendEmailFrom none) (resendEmailTo none)
        ⟨.str "Ali", .str "Veli", .str "ali@x.com", .str "merhaba"⟩ =
      (.ok, some (resendMailMsg (resendEmailFrom none) (resendEmailTo none)
        ⟨.str "Ali", .str "Veli", .str "ali@x.com", .str "merhaba"⟩))
    ∧ (resendMailMsg (resendEmailFrom none) (resendEmailTo none)
        ⟨.str "Ali", .str "Veli", .str "ali@x.com", .str "merhaba"⟩).toAddr =
      [resendEmailTo none]
    ∧ (resendMailMsg (resendEmailFrom none) (resendEmailTo none)
        ⟨.str "Ali", .str "Veli", .str "ali@x.com", .str "merhaba"⟩).replyTo =
      .str "ali@x.com" :=
  ⟨(contact_configured_recipient_and_replyTo none none none "ts" ⟨"u@x", "p"⟩
      ⟨.str "Ali", .str "Veli", .str "ali@x.com", .str "merhaba"⟩ rfl).1,
    (contact_configured_recipient_and_replyTo none none none "ts" ⟨"u@x", "p"⟩
      ⟨.str "Ali", .str "Veli", .str "ali@x.com", .str "merhaba"⟩ rfl).2.1,
    (contact_configured_recipient_and_replyTo none none none "ts" ⟨"u@x", "p"⟩
      ⟨.str "Ali", .str "Veli", .str "ali@x.com", .str "merhaba"⟩ rfl).2.2.1⟩
